import Mathlib

/-!
Verification development for the nri-navigator maintenance scripts
(src/scripts/link_checker.py, src/scripts/description_generator.py,
src/scripts/logo_tool.py).  The Python code is shallowly embedded:
pure string manipulation is translated to executable Lean functions over
character lists, the YAML dataset becomes an explicit nested structure,
and every network effect (HTTP fetch, favicon probe, file write outcome)
is abstracted as an oracle parameter so that the per-item classification
and update logic of the scripts can be stated and proved exactly.
-/

namespace Url

/-- Characters treated as whitespace by the Python calls str.strip and
the regex whitespace class used by the scripts (ASCII subset). -/
def isPySpace (c : Char) : Bool :=
  c = ' ' || c = '\t' || c = '\n' || c = '\r' || c = '\x0b' || c = '\x0c'

/-- Python str.strip with no argument: remove whitespace from both ends. -/
def pyStrip (s : String) : String :=
  ⟨((s.data.dropWhile isPySpace).reverse.dropWhile isPySpace).reverse⟩

/-- Python str.lower for the ASCII domains handled by the scripts. -/
def pyLower (s : String) : String := ⟨s.data.map Char.toLower⟩

/-- Python str.startswith. -/
def startsWithPy (s pre : String) : Bool := pre.data.isPrefixOf s.data

/-- Python str.endswith. -/
def endsWithPy (s suf : String) : Bool := suf.data.isSuffixOf s.data

/-- Python character-based slicing s[:n]. -/
def strTake (s : String) (n : Nat) : String := ⟨s.data.take n⟩

/-- Python character-based slicing s[n:]. -/
def strDrop (s : String) (n : Nat) : String := ⟨s.data.drop n⟩

/-- Netloc of a URL as computed by urllib.parse.urlparse on the inputs
the scripts build (which always carry an explicit http or https scheme
once normalized): the text between the scheme separator and the first
slash, question mark or hash.  Inputs without such a scheme have an
empty netloc, as urlparse reports for scheme-less strings. -/
def netlocOf (url : String) : String :=
  if startsWithPy url ("http://") then
    ⟨(url.data.drop 7).takeWhile (fun c => !(c = '/' || c = '?' || c = '#'))⟩
  else if startsWithPy url ("https://") then
    ⟨(url.data.drop 8).takeWhile (fun c => !(c = '/' || c = '?' || c = '#'))⟩
  else ""

/-- Collapse every maximal run of whitespace into a single space, as the
regex substitution in generate_description does. -/
def collapseWSAux : List Char → Bool → List Char
  | [], _ => []
  | c :: rest, prevSpace =>
    if isPySpace c then
      if prevSpace then collapseWSAux rest true
      else ' ' :: collapseWSAux rest true
    else c :: collapseWSAux rest false

/-- Whitespace collapsing over a whole string. -/
def collapseWS (s : String) : String := ⟨collapseWSAux s.data false⟩

/-- Python f-string rendering of an optional value (None prints as None). -/
def pyStr : Option String → String
  | none => "None"
  | some s => s

end Url

namespace Webstack

/-- One link entry of the YAML dataset.  Absent keys load as none; the
description key can also be explicitly null, which loads as none too. -/
structure LinkEntry where
  title : Option String
  url : Option String
  description : Option String
  logo : Option String
  deriving Repr, DecidableEq

/-- A term group: a named sub-category holding link entries. -/
structure TermGroup where
  term : Option String
  links : List LinkEntry
  deriving Repr, DecidableEq

/-- A top-level category of the dataset. -/
structure Category where
  taxonomy : Option String
  list : List TermGroup
  deriving Repr, DecidableEq

end Webstack

namespace LinkChecker

open Url

/-- The suffix list of is_china_domain in link_checker.py. -/
def china_suffixes : List String :=
  [".cn", ".com.cn", ".net.cn", ".org.cn", ".gov.cn", ".edu.cn"]

/-- is_china_domain from link_checker.py: lowercased netloc of the URL
ends with one of the recognized suffixes; empty URL reports false. -/
def is_china_domain (url : String) : Bool :=
  if url = "" then false
  else china_suffixes.any (fun suf => endsWithPy (pyLower (netlocOf url)) suf)

/-- normalize_url from link_checker.py: empty input is rejected, other
input is stripped and given an https scheme when it has none. -/
def normalize_url (url : String) : Option String :=
  if url = "" then none
  else if startsWithPy (pyStrip url) ("http://")
          || startsWithPy (pyStrip url) ("https://") then some (pyStrip url)
  else some ("https://" ++ pyStrip url)

/-- The timeout reassignment in check_single_link: china domains get 20
seconds, every other URL keeps the timeout argument (10 by default). -/
def effective_timeout (url : String) (timeout : Nat) : Nat :=
  if is_china_domain url then 20 else timeout

/-- The running statistics dictionary of the LinkChecker class. -/
structure Stats where
  total : Nat
  success : Nat
  failed : Nat
  timeout : Nat
  redirect : Nat
  ssl_error : Nat
  dns_error : Nat
  unknown_error : Nat
  deriving Repr, DecidableEq

/-- The per-link result dictionary built by check_single_link.  The
wall-clock response_time field is not modelled. -/
structure CheckResult where
  url : String
  title : String
  category : String
  status : String
  status_code : Option Nat
  error : Option String
  deriving Repr, DecidableEq

/-- The mutable state of the checker: statistics and failed_links. -/
structure CheckerState where
  stats : Stats
  failed_links : List CheckResult
  deriving Repr, DecidableEq

/-- The work item fields check_single_link reads from link_info. -/
structure LinkInfo where
  url : String
  title : String
  category : String
  deriving Repr, DecidableEq

/-- Outcome of the HTTP GET issued by check_single_link: a response with
a status code, or one of the exception classes the code catches. -/
inductive FetchEvent where
  | response (status_code : Nat)
  | timeoutExc
  | sslErrorExc
  | connectionErrorExc (dns_like : Bool)
  | otherExc (msg : String)
  deriving Repr, DecidableEq

/-- check_single_link from link_checker.py, with the network outcome
passed in as an event.  Returns the result record and the updated
checker state (statistics plus failed_links). -/
def check_single_link (link_info : LinkInfo) (timeout : Nat) (ev : FetchEvent)
    (st : CheckerState) : CheckResult × CheckerState :=
  match normalize_url link_info.url with
  | none =>
    ({ url := link_info.url, title := link_info.title, category := link_info.category,
       status := "invalid_url", status_code := none,
       error := some ("Invalid URL format") }, st)
  | some url =>
    let timeout := effective_timeout url timeout
    match ev with
    | .response code =>
      if code = 200 then
        let r : CheckResult :=
          { url := link_info.url, title := link_info.title, category := link_info.category,
            status := "success", status_code := some code, error := none }
        (r, { st with stats := { st.stats with success := st.stats.success + 1 } })
      else if 300 ≤ code ∧ code < 400 then
        let r : CheckResult :=
          { url := link_info.url, title := link_info.title, category := link_info.category,
            status := "redirect", status_code := some code, error := none }
        (r, { st with stats := { st.stats with redirect := st.stats.redirect + 1 } })
      else
        let r : CheckResult :=
          { url := link_info.url, title := link_info.title, category := link_info.category,
            status := "http_error", status_code := some code,
            error := some ("HTTP " ++ toString code) }
        (r, { st with stats := { st.stats with failed := st.stats.failed + 1 },
                      failed_links := st.failed_links ++ [r] })
    | .timeoutExc =>
      let r : CheckResult :=
        { url := link_info.url, title := link_info.title, category := link_info.category,
          status := "timeout", status_code := none,
          error := some ("Timeout after " ++ toString timeout ++ "s") }
      (r, { st with stats := { st.stats with timeout := st.stats.timeout + 1 },
                    failed_links := st.failed_links ++ [r] })
    | .sslErrorExc =>
      let r : CheckResult :=
        { url := link_info.url, title := link_info.title, category := link_info.category,
          status := "ssl_error", status_code := none,
          error := some ("SSL Certificate Error") }
      (r, { st with stats := { st.stats with ssl_error := st.stats.ssl_error + 1 },
                    failed_links := st.failed_links ++ [r] })
    | .connectionErrorExc dns_like =>
      if dns_like then
        let r : CheckResult :=
          { url := link_info.url, title := link_info.title, category := link_info.category,
            status := "dns_error", status_code := none,
            error := some ("Connection failed") }
        (r, { st with stats := { st.stats with dns_error := st.stats.dns_error + 1 },
                      failed_links := st.failed_links ++ [r] })
      else
        let r : CheckResult :=
          { url := link_info.url, title := link_info.title, category := link_info.category,
            status := "connection_error", status_code := none,
            error := some ("Connection failed") }
        (r, { st with stats := { st.stats with failed := st.stats.failed + 1 },
                      failed_links := st.failed_links ++ [r] })
    | .otherExc msg =>
      let r : CheckResult :=
        { url := link_info.url, title := link_info.title, category := link_info.category,
          status := "unknown_error", status_code := none, error := some msg }
      (r, { st with stats := { st.stats with unknown_error := st.stats.unknown_error + 1 },
                    failed_links := st.failed_links ++ [r] })

/-- A nonempty URL always survives normalization. -/
theorem normalize_url_is_some (u : String) (h : u ≠ "") :
    ∃ v, normalize_url u = some v := by
  unfold normalize_url
  rw [if_neg h]
  split
  · exact ⟨_, rfl⟩
  · exact ⟨_, rfl⟩

end LinkChecker

/-- Zeroed statistics, as the LinkChecker constructor builds them. -/
def initStats : LinkChecker.Stats := ⟨0, 0, 0, 0, 0, 0, 0, 0⟩

/-- Fresh checker state: zero counters and no failed links. -/
def initState : LinkChecker.CheckerState := ⟨initStats, []⟩

/-- A sample work item used for concrete evaluations. -/
def demoLink : LinkChecker.LinkInfo :=
  { url := "https://example.org", title := "Example", category := "Demo" }

/-- C1 counterexample: the HTTP status code 201 lies in the 2xx range but
check_single_link classifies it as http_error, not success, because the
code compares the status code to the literal 200. -/
theorem c1_status_201_not_success :
    (200 ≤ 201 ∧ 201 < 300)
    ∧ (LinkChecker.check_single_link demoLink 10 (.response 201) initState).1.status
        = "http_error"
    ∧ (LinkChecker.check_single_link demoLink 10 (.response 201) initState).1.status
        ≠ "success" := by
  refine ⟨by decide, by decide, by decide⟩

/-- C1 amended: for every response received on a nonempty URL, a status
code of exactly 200 is classified success, a status code in the 3xx
range is classified redirect, and every other status code, including
2xx codes other than 200, is classified http_error. -/
theorem c1_status_classification (li : LinkChecker.LinkInfo) (code : Nat)
    (st : LinkChecker.CheckerState) (h : li.url ≠ "") :
    (LinkChecker.check_single_link li 10 (.response code) st).1.status
      = (if code = 200 then "success"
         else if 300 ≤ code ∧ code < 400 then "redirect"
         else "http_error") := by
  obtain ⟨v, hv⟩ := LinkChecker.normalize_url_is_some li.url h
  simp only [LinkChecker.check_single_link, hv]
  split_ifs <;> rfl

/-- C1 witness: the amended classification evaluated at the demo link
with status code 404. -/
theorem c1_status_classification_witness :
    (LinkChecker.check_single_link demoLink 10 (.response 404) initState).1.status
      = (if 404 = 200 then "success"
         else if 300 ≤ 404 ∧ 404 < 400 then "redirect"
         else "http_error") :=
  c1_status_classification demoLink 404 initState (by decide)

/-- C9: a timeout on a nonempty URL is classified timeout, the result is
appended to the failed-links list, the timeout counter is incremented
and the failed counter is left unchanged. -/
theorem c9_timeout_classification (li : LinkChecker.LinkInfo)
    (st : LinkChecker.CheckerState) (h : li.url ≠ "") :
    (LinkChecker.check_single_link li 10 .timeoutExc st).1.status = "timeout"
    ∧ (LinkChecker.check_single_link li 10 .timeoutExc st).2.failed_links
        = st.failed_links ++ [(LinkChecker.check_single_link li 10 .timeoutExc st).1]
    ∧ (LinkChecker.check_single_link li 10 .timeoutExc st).2.stats.timeout
        = st.stats.timeout + 1
    ∧ (LinkChecker.check_single_link li 10 .timeoutExc st).2.stats.failed
        = st.stats.failed := by
  obtain ⟨v, hv⟩ := LinkChecker.normalize_url_is_some li.url h
  simp [LinkChecker.check_single_link, hv]

/-- C9 witness: the timeout classification evaluated at the demo link
on a fresh checker state. -/
theorem c9_timeout_classification_witness :
    (LinkChecker.check_single_link demoLink 10 .timeoutExc initState).1.status = "timeout"
    ∧ (LinkChecker.check_single_link demoLink 10 .timeoutExc initState).2.failed_links
        = initState.failed_links
          ++ [(LinkChecker.check_single_link demoLink 10 .timeoutExc initState).1]
    ∧ (LinkChecker.check_single_link demoLink 10 .timeoutExc initState).2.stats.timeout
        = initState.stats.timeout + 1
    ∧ (LinkChecker.check_single_link demoLink 10 .timeoutExc initState).2.stats.failed
        = initState.stats.failed :=
  c9_timeout_classification demoLink initState (by decide)

namespace DescGen

open Url

/-- The fields of the dictionary extract_website_info returns on a
successful fetch of a page. -/
structure WebsiteInfo where
  title : Option String
  meta_description : Option String
  og_description : Option String
  og_title : Option String
  main_text : Option String
  deriving Repr, DecidableEq

/-- Result of extract_website_info: a success dictionary with the
scraped fields, or an error marker (every exception is caught and
mapped to a status of error). -/
inductive FetchResult where
  | success (info : WebsiteInfo)
  | error
  deriving Repr, DecidableEq

/-- The candidate filter of generate_description: the candidate must be
present, nonempty, and its stripped length must exceed 10. -/
def qualifiesOpt : Option String → Bool
  | none => false
  | some d => if d = "" then false else decide (10 < (pyStrip d).length)

/-- Whitespace collapsing followed by stripping, as applied to the
selected candidate before the length test for truncation. -/
def cleanedOf (d : String) : String := pyStrip (collapseWS d)

/-- The cleanup applied to the selected candidate in
generate_description: collapse whitespace, strip, and truncate to the
first 100 characters plus an ellipsis marker when longer than 100. -/
def cleanDesc (d : String) : String :=
  let cleaned := cleanedOf d
  if 100 < cleaned.length then strTake cleaned 100 ++ "..." else cleaned

/-- The candidate selection loop of generate_description: the first
source passing the filter is taken. -/
def pickFirst : List (Option String) → Option String
  | [] => none
  | o :: rest => if qualifiesOpt o then o else pickFirst rest

/-- generate_description from description_generator.py: none on a fetch
error, otherwise the first qualifying candidate in the priority order
meta description, Open Graph description, Open Graph title, page title,
main text, cleaned and truncated; when no candidate qualifies, the
fallback string built from the configured title and the URL netloc. -/
def generate_description (website_info : FetchResult) (title url : String) :
    Option String :=
  match website_info with
  | .error => none
  | .success info =>
    match pickFirst [info.meta_description, info.og_description,
                     info.og_title, info.title, info.main_text] with
    | some desc => some (cleanDesc desc)
    | none => some (title ++ " - " ++ netlocOf url)

/-- Outcome of one work item in update_descriptions: the fetch returned
a success dictionary, returned an error dictionary, or the future
raised when its result was drained. -/
inductive FetchOutcome where
  | success (info : WebsiteInfo)
  | error
  | raised
  deriving Repr, DecidableEq

/-- URL of an entry as the work item records it. -/
def urlOf (e : Webstack.LinkEntry) : String := e.url.getD ""

/-- Title of an entry as the work item records it (a missing title key
reaches the fallback f-string as None). -/
def titleOf (e : Webstack.LinkEntry) : String := pyStr e.title

/-- The work item filter of update_descriptions: skip entries with a
non-null description when only_null is set, and keep only entries with
a nonempty URL. -/
def selected (only_null : Bool) (e : Webstack.LinkEntry) : Bool :=
  if only_null && e.description.isSome then false
  else match e.url with
       | some u => if u = "" then false else true
       | none => false

/-- The per-entry effect of the draining loop of update_descriptions:
an unselected entry is untouched; a selected entry receives the
generated description when one is produced, and keeps its prior
description when the fetch errored or the future raised. -/
def updateEntry (fetch : String → FetchOutcome) (only_null : Bool)
    (e : Webstack.LinkEntry) : Webstack.LinkEntry :=
  if selected only_null e then
    match fetch (urlOf e) with
    | .raised => e
    | .error =>
      match generate_description .error (titleOf e) (urlOf e) with
      | some d => { e with description := some d }
      | none => e
    | .success info =>
      match generate_description (.success info) (titleOf e) (urlOf e) with
      | some d => { e with description := some d }
      | none => e
  else e

/-- The dataset after the draining loop of update_descriptions: every
entry of every term group of every category goes through updateEntry.
Entry mutations commute, so completion order does not matter. -/
def update_data (fetch : String → FetchOutcome) (only_null : Bool)
    (data : List Webstack.Category) : List Webstack.Category :=
  data.map (fun c =>
    { c with list := c.list.map (fun g =>
        { g with links := g.links.map (updateEntry fetch only_null) }) })

/-- The links_to_update collection of update_descriptions, flattened in
document order. -/
def collect_links (only_null : Bool) (data : List Webstack.Category) :
    List Webstack.LinkEntry :=
  (data.flatMap (fun c => c.list.flatMap (fun g => g.links))).filter (selected only_null)

/-- Whether a work item counted as updated (its fetch succeeded; a
success always yields a description thanks to the fallback). -/
def fetchSucceeded : FetchOutcome → Bool
  | .success _ => true
  | .error => false
  | .raised => false

/-- The statistics dictionary update_descriptions returns. -/
structure UpdateStats where
  updated : Nat
  failed : Nat
  total : Nat
  deriving Repr, DecidableEq

/-- Observable outcome of one run of update_descriptions: the final
in-memory dataset, the returned statistics, whether a save failure was
reported, and whether the process terminated. -/
structure RunOutcome where
  data : List Webstack.Category
  stats : UpdateStats
  saveFailureReported : Bool
  exited : Bool
  deriving Repr, DecidableEq

/-- update_descriptions from description_generator.py with the network
and the file write abstracted: when the save succeeds the real counters
are returned; when the save fails the failure is reported, the run
returns a zero updated count, and neither the process nor the mutated
in-memory dataset is affected. -/
def update_descriptions (fetch : String → FetchOutcome) (only_null : Bool)
    (saveOk : Bool) (data : List Webstack.Category) : RunOutcome :=
  let items := collect_links only_null data
  let newData := update_data fetch only_null data
  if saveOk then
    { data := newData,
      stats := { updated := items.countP (fun e => fetchSucceeded (fetch (urlOf e))),
                 failed := items.countP (fun e => !(fetchSucceeded (fetch (urlOf e)))),
                 total := items.length },
      saveFailureReported := false, exited := false }
  else
    { data := newData,
      stats := { updated := 0, failed := items.length, total := items.length },
      saveFailureReported := true, exited := false }

end DescGen

namespace LogoTool

open Url

/-- The default favicon API template list of UnifiedLogoTool. -/
def favicon_apis : List String :=
  ["https://api.iowen.cn/favicon/{domain}.png",
   "https://t2.gstatic.com/faviconV2?client=SOCIAL&type=FAVICON&fallback_opts=TYPE,SIZE,URL&url=https://{domain}&size=128",
   "https://www.google.com/s2/favicons?sz=128&domain={domain}",
   "https://favicons.githubusercontent.com/{domain}",
   "https://icons.duckduckgo.com/ip3/{domain}.ico",
   "https://favicon.im/{domain}?larger=true",
   "https://api.faviconkit.com/{domain}/128"]

/-- The china-specific favicon API template list of UnifiedLogoTool. -/
def china_favicon_apis : List String :=
  ["https://statics.dnspod.cn/proxy_favicon/_/favicon?domain={domain}",
   "https://api.iowen.cn/favicon/{domain}.png",
   "https://favicon.link/f/{domain}",
   "https://icon.horse/icon/{domain}?size=large",
   "https://t2.gstatic.com/faviconV2?client=SOCIAL&type=FAVICON&fallback_opts=TYPE,SIZE,URL&url=https://{domain}&size=128",
   "https://www.google.com/s2/favicons?sz=128&domain={domain}",
   "https://api.faviconkit.com/{domain}/128"]

/-- The china domain suffix set of UnifiedLogoTool. -/
def china_domains : List String :=
  [".cn", ".com.cn", ".net.cn", ".org.cn", ".gov.cn", ".edu.cn"]

/-- extract_domain from logo_tool.py: prepend an https scheme when the
input has none, take the lowercased netloc, and strip one leading
www. prefix. -/
def extract_domain (url : String) : String :=
  let url := if startsWithPy url ("http://") || startsWithPy url ("https://")
             then url else "https://" ++ url
  let domain := pyLower (netlocOf url)
  if startsWithPy domain ("www.") then strDrop domain 4 else domain

/-- is_china_domain from logo_tool.py: works on an already extracted
domain, lowercasing it and testing the suffix set. -/
def is_china_domain (domain : String) : Bool :=
  china_domains.any (fun suf => endsWithPy (pyLower domain) suf)

/-- Python str.format substituting the domain placeholder of a favicon
API template. -/
def format_domain (template domain : String) : String :=
  String.intercalate domain (template.splitOn ("{domain}"))

/-- The API list and timeout selection at the top of
get_favicon_for_domain: china domains get the china list and a timeout
of 15, every other domain gets the default list and 10. -/
def select_apis_and_timeout (domain : String) : List String × Nat :=
  if is_china_domain domain then (china_favicon_apis, 15)
  else (favicon_apis, 10)

/-- get_favicon_for_domain from logo_tool.py with the network probe and
the direct-website fallback abstracted as oracles: try each selected
API template in order and accept the first URL passing the probe; for
china domains a failed scan falls back to the direct website probe. -/
def get_favicon_for_domain (probe : String → Nat → Bool)
    (website_fallback : Option String) (domain : String) : Option String :=
  if domain = "" then none
  else
    let sel := select_apis_and_timeout domain
    match (sel.1.map (fun t => format_domain t domain)).find?
            (fun u => probe u sel.2) with
    | some u => some u
    | none => if is_china_domain domain then website_fallback else none

/-- Observable behavior of save_webstack_data in logo_tool.py, which
wraps the YAML dump in a try block whose except clause prints the
failure and calls sys.exit(1). -/
structure SaveResult where
  reported : Bool
  exitCode : Option Nat
  deriving Repr, DecidableEq

/-- save_webstack_data from logo_tool.py over an abstract write outcome:
a successful write is silent, a failed write is reported and the
process exits with code 1. -/
def save_webstack_data (saveOk : Bool) : SaveResult :=
  if saveOk then { reported := false, exitCode := none }
  else { reported := true, exitCode := some 1 }

/-- Logo of an entry as logo_tool.py reads it (missing key loads as the
empty string default). -/
def logoOf (e : Webstack.LinkEntry) : String := e.logo.getD ""

/-- The collection filter of verify_existing_logos: the logo string is
truthy and its stripped form is truthy. -/
def logo_collected (e : Webstack.LinkEntry) : Bool :=
  if logoOf e = "" then false
  else if pyStrip (logoOf e) = "" then false
  else true

/-- Whether verify_existing_logos will clear the logo of an entry: it
was collected and the validation probe rejected it. -/
def logo_needs_clear (probe : String → Bool) (e : Webstack.LinkEntry) : Bool :=
  logo_collected e && !(probe (logoOf e))

/-- The per-entry mutation of verify_existing_logos: an invalid
collected logo is reset to the empty string, everything else is left
alone. -/
def verify_entry (probe : String → Bool) (e : Webstack.LinkEntry) :
    Webstack.LinkEntry :=
  if logo_needs_clear probe e then { e with logo := some "" } else e

/-- Observable outcome of verify_existing_logos: the final in-memory
dataset and whether the dataset file was rewritten. -/
structure VerifyOutcome where
  data : List Webstack.Category
  saved : Bool
  deriving Repr, DecidableEq

/-- verify_existing_logos from logo_tool.py with the validation probe
abstracted: every collected entry failing the probe has its logo
cleared, and the dataset file is saved exactly when the list of invalid
logos is nonempty. -/
def verify_existing_logos (probe : String → Bool)
    (data : List Webstack.Category) : VerifyOutcome :=
  { data := data.map (fun c =>
      { c with list := c.list.map (fun g =>
          { g with links := g.links.map (verify_entry probe) }) }),
    saved := data.any (fun c => c.list.any (fun g =>
      g.links.any (logo_needs_clear probe))) }

end LogoTool

/-- A sample dataset entry with a null description and a nonempty logo,
used for concrete evaluations. -/
def demoEntry : Webstack.LinkEntry :=
  { title := some ("Example"), url := some ("https://example.org"),
    description := none, logo := some ("https://img.example.org/logo.png") }

/-- A sample dataset entry that already carries a description. -/
def demoEntryFilled : Webstack.LinkEntry :=
  { title := some ("T"), url := some ("https://example.org"),
    description := some ("Existing text"), logo := none }

/-- A sample scrape result whose only usable candidate is the Open
Graph description. -/
def demoInfo : DescGen.WebsiteInfo :=
  { title := none, meta_description := none,
    og_description := some ("An example Open Graph description text"),
    og_title := none, main_text := none }

/-- C2 counterexample: when the write of the dataset fails, the logo
tool save_webstack_data reports the failure and terminates the process
with exit code 1, so the claim that no dataset-saving tool terminates
on a failed write is false. -/
theorem c2_logo_save_failure_exits :
    (LogoTool.save_webstack_data false).exitCode = some 1
    ∧ (LogoTool.save_webstack_data false).reported = true := ⟨rfl, rfl⟩

/-- C2 amended: on a failed write the description generator
update_descriptions reports the failure, does not terminate, and keeps
the already-applied in-memory updates, while the logo tool
save_webstack_data reports the failure but terminates the process with
exit code 1. -/
theorem c2_save_failure_handling (fetch : String → DescGen.FetchOutcome)
    (only_null : Bool) (data : List Webstack.Category) :
    ((DescGen.update_descriptions fetch only_null false data).saveFailureReported = true)
    ∧ ((DescGen.update_descriptions fetch only_null false data).exited = false)
    ∧ ((DescGen.update_descriptions fetch only_null false data).data
        = DescGen.update_data fetch only_null data)
    ∧ ((LogoTool.save_webstack_data false).reported = true)
    ∧ ((LogoTool.save_webstack_data false).exitCode = some 1) :=
  ⟨rfl, rfl, rfl, rfl, rfl⟩

set_option maxRecDepth 100000

/-- C3: the qualification test of generate_description requires a
stripped length strictly greater than 10, so a candidate of stripped
length exactly 10 is rejected and the run falls through to the
fallback, against the at-least-10 wording of the spec and of the inline
comment in the code; the truncation behavior itself matches: a cleaned
candidate of 150 characters becomes its first 100 characters plus an
ellipsis marker, and an 8-character candidate is rejected in favor of
the next priority source. -/
theorem c3_min_length_boundary :
    (Url.pyStrip ("0123456789")).length = 10
    ∧ DescGen.qualifiesOpt (some ("0123456789")) = false
    ∧ DescGen.generate_description
        (.success { title := none, meta_description := some ("0123456789"),
                    og_description := none, og_title := none, main_text := none })
        ("T") ("https://example.com")
        = some ("T - example.com")
    ∧ DescGen.cleanDesc (String.mk (List.replicate 150 'a'))
        = String.mk (List.replicate 100 'a') ++ "..."
    ∧ DescGen.generate_description
        (.success { title := none, meta_description := some ("12345678"),
                    og_description := some (String.mk (List.replicate 20 'b')),
                    og_title := none, main_text := none })
        ("T") ("https://example.com")
        = some (String.mk (List.replicate 20 'b')) := by
  refine ⟨rfl, by decide, by decide, by decide, by decide⟩

/-- C4: on a successful fetch, generate_description returns the cleaned
form of the first qualifying candidate taken in the fixed priority
order meta description, Open Graph description, Open Graph title, page
title, main body text, and returns the title-dash-domain fallback when
no candidate qualifies. -/
theorem c4_priority_order_and_fallback (info : DescGen.WebsiteInfo)
    (title url : String) :
    (∀ d, info.meta_description = some d → DescGen.qualifiesOpt (some d) = true →
       DescGen.generate_description (.success info) title url
         = some (DescGen.cleanDesc d))
    ∧ (DescGen.qualifiesOpt info.meta_description = false →
       ∀ d, info.og_description = some d → DescGen.qualifiesOpt (some d) = true →
       DescGen.generate_description (.success info) title url
         = some (DescGen.cleanDesc d))
    ∧ (DescGen.qualifiesOpt info.meta_description = false →
       DescGen.qualifiesOpt info.og_description = false →
       ∀ d, info.og_title = some d → DescGen.qualifiesOpt (some d) = true →
       DescGen.generate_description (.success info) title url
         = some (DescGen.cleanDesc d))
    ∧ (DescGen.qualifiesOpt info.meta_description = false →
       DescGen.qualifiesOpt info.og_description = false →
       DescGen.qualifiesOpt info.og_title = false →
       ∀ d, info.title = some d → DescGen.qualifiesOpt (some d) = true →
       DescGen.generate_description (.success info) title url
         = some (DescGen.cleanDesc d))
    ∧ (DescGen.qualifiesOpt info.meta_description = false →
       DescGen.qualifiesOpt info.og_description = false →
       DescGen.qualifiesOpt info.og_title = false →
       DescGen.qualifiesOpt info.title = false →
       ∀ d, info.main_text = some d → DescGen.qualifiesOpt (some d) = true →
       DescGen.generate_description (.success info) title url
         = some (DescGen.cleanDesc d))
    ∧ (DescGen.qualifiesOpt info.meta_description = false →
       DescGen.qualifiesOpt info.og_description = false →
       DescGen.qualifiesOpt info.og_title = false →
       DescGen.qualifiesOpt info.title = false →
       DescGen.qualifiesOpt info.main_text = false →
       DescGen.generate_description (.success info) title url
         = some (title ++ " - " ++ Url.netlocOf url)) := by
  refine ⟨?_, ?_, ?_, ?_, ?_, ?_⟩
  · intro d hd hq
    simp [DescGen.generate_description, DescGen.pickFirst, hd, hq]
  · intro h1 d hd hq
    simp [DescGen.generate_description, DescGen.pickFirst, h1, hd, hq]
  · intro h1 h2 d hd hq
    simp [DescGen.generate_description, DescGen.pickFirst, h1, h2, hd, hq]
  · intro h1 h2 h3 d hd hq
    simp [DescGen.generate_description, DescGen.pickFirst, h1, h2, h3, hd, hq]
  · intro h1 h2 h3 h4 d hd hq
    simp [DescGen.generate_description, DescGen.pickFirst, h1, h2, h3, h4, hd, hq]
  · intro h1 h2 h3 h4 h5
    simp [DescGen.generate_description, DescGen.pickFirst, h1, h2, h3, h4, h5]

/-- C4 witness: with no meta description and a qualifying Open Graph
description, that candidate is selected. -/
theorem c4_priority_order_and_fallback_witness :
    DescGen.generate_description (.success demoInfo) ("T") ("https://example.org")
      = some (DescGen.cleanDesc ("An example Open Graph description text")) :=
  (c4_priority_order_and_fallback demoInfo ("T") ("https://example.org")).2.1
    rfl ("An example Open Graph description text") rfl (by decide)

/-- C5: when the fetch of a work item errors or the future raises, the
entry is left entirely untouched, so a null description stays null and
is never overwritten with an error placeholder; a fetch error also
makes generate_description return none. -/
theorem c5_fetch_failure_preserves_description
    (fetch : String → DescGen.FetchOutcome) (only_null : Bool)
    (e : Webstack.LinkEntry)
    (h : fetch (DescGen.urlOf e) = DescGen.FetchOutcome.error
         ∨ fetch (DescGen.urlOf e) = DescGen.FetchOutcome.raised) :
    DescGen.updateEntry fetch only_null e = e
    ∧ (DescGen.updateEntry fetch only_null e).description = e.description
    ∧ (∀ t u : String,
        DescGen.generate_description DescGen.FetchResult.error t u = none) := by
  have h1 : DescGen.updateEntry fetch only_null e = e := by
    rcases h with h | h <;>
      simp [DescGen.updateEntry, h, DescGen.generate_description]
  exact ⟨h1, by rw [h1], fun t u => rfl⟩

/-- C5 witness: a fetch that always errors leaves the demo entry with
its null description untouched. -/
theorem c5_fetch_failure_preserves_description_witness :
    DescGen.updateEntry (fun _ => DescGen.FetchOutcome.error) true demoEntry = demoEntry
    ∧ (DescGen.updateEntry (fun _ => DescGen.FetchOutcome.error) true demoEntry).description
        = demoEntry.description
    ∧ (∀ t u : String,
        DescGen.generate_description DescGen.FetchResult.error t u = none) :=
  c5_fetch_failure_preserves_description (fun _ => DescGen.FetchOutcome.error)
    true demoEntry (Or.inl rfl)

/-- C6: an entry whose description is already non-null is skipped by
the only-missing filter of update_descriptions, so no field of it is
mutated by the run. -/
theorem c6_only_null_skips_existing (fetch : String → DescGen.FetchOutcome)
    (e : Webstack.LinkEntry) (h : e.description.isSome = true) :
    DescGen.updateEntry fetch true e = e := by
  simp [DescGen.updateEntry, DescGen.selected, h]

/-- C6 witness: the filled demo entry survives an only-missing run with
a fetch that would produce a new description. -/
theorem c6_only_null_skips_existing_witness :
    DescGen.updateEntry (fun _ => DescGen.FetchOutcome.success
      { title := none, meta_description := none, og_description := none,
        og_title := none, main_text := none }) true demoEntryFilled
      = demoEntryFilled :=
  c6_only_null_skips_existing _ demoEntryFilled rfl

/-- C7: a URL whose lowercased netloc ends in one of the recognized
suffixes gets the extended link-checker timeout of 20 instead of the
default 10, and a domain ending in one of the suffixes makes the logo
tool select the china-specific API template list (with its timeout of
15); every other URL and domain gets the default timeout and list. -/
theorem c7_china_domain_routing (url domain : String) :
    (LinkChecker.effective_timeout url 10 =
       if LinkChecker.china_suffixes.any
            (fun suf => Url.endsWithPy (Url.pyLower (Url.netlocOf url)) suf)
       then 20 else 10)
    ∧ (LogoTool.select_apis_and_timeout domain =
       if LogoTool.china_domains.any
            (fun suf => Url.endsWithPy (Url.pyLower domain) suf)
       then (LogoTool.china_favicon_apis, 15) else (LogoTool.favicon_apis, 10)) := by
  constructor
  · by_cases h : url = ""
    · subst h
      decide
    · simp [LinkChecker.effective_timeout, LinkChecker.is_china_domain, h]
  · rfl

/-- C8: extract_domain returns the lowercased netloc with one leading
www. removed, after prepending an https scheme to scheme-less input;
the sample URL maps to example.com and only one www. is stripped. -/
theorem c8_extract_domain :
    LogoTool.extract_domain ("https://WWW.Example.com/x") = "example.com"
    ∧ (∀ url : String, LogoTool.extract_domain url =
        (let u := if Url.startsWithPy url ("http://")
                     || Url.startsWithPy url ("https://")
                  then url else "https://" ++ url
         let d := Url.pyLower (Url.netlocOf u)
         if Url.startsWithPy d ("www.") then Url.strDrop d 4 else d))
    ∧ LogoTool.extract_domain ("https://www.www.example.com/") = "www.example.com" :=
  ⟨by decide, fun url => rfl, by decide⟩

/-- C10: verify_existing_logos clears the logo of every collected entry
rejected by the validation probe, keeps every passing logo, touches no
other field of any entry, and rewrites the dataset file exactly when at
least one logo was invalidated. -/
theorem c10_verify_existing_logos (probe : String → Bool)
    (data : List Webstack.Category) (e : Webstack.LinkEntry) :
    (LogoTool.logo_collected e = true → probe (LogoTool.logoOf e) = false →
       LogoTool.verify_entry probe e = { e with logo := some "" })
    ∧ (LogoTool.logo_collected e = true → probe (LogoTool.logoOf e) = true →
       LogoTool.verify_entry probe e = e)
    ∧ (LogoTool.logo_collected e = false → LogoTool.verify_entry probe e = e)
    ∧ ((LogoTool.verify_entry probe e).title = e.title
       ∧ (LogoTool.verify_entry probe e).url = e.url
       ∧ (LogoTool.verify_entry probe e).description = e.description)
    ∧ ((LogoTool.verify_existing_logos probe data).saved = true ↔
       ∃ c ∈ data, ∃ g ∈ c.list, ∃ x ∈ g.links,
         LogoTool.logo_collected x = true ∧ probe (LogoTool.logoOf x) = false) := by
  refine ⟨?_, ?_, ?_, ?_, ?_⟩
  · intro hc hp
    simp [LogoTool.verify_entry, LogoTool.logo_needs_clear, hc, hp]
  · intro hc hp
    simp [LogoTool.verify_entry, LogoTool.logo_needs_clear, hc, hp]
  · intro hc
    simp [LogoTool.verify_entry, LogoTool.logo_needs_clear, hc]
  · unfold LogoTool.verify_entry
    split
    · exact ⟨rfl, rfl, rfl⟩
    · exact ⟨rfl, rfl, rfl⟩
  · simp [LogoTool.verify_existing_logos, LogoTool.logo_needs_clear,
          List.any_eq_true, Bool.and_eq_true]

/-- C10 witness: a probe rejecting everything clears the nonempty logo
of the demo entry. -/
theorem c10_verify_existing_logos_witness :
    LogoTool.verify_entry (fun _ => false) demoEntry
      = { demoEntry with logo := some "" } :=
  (c10_verify_existing_logos (fun _ => false) [] demoEntry).1 (by decide) rfl
